import Mathlib

/-!
Shallow embedding of the `polyloft` repository's stopwatch utility
(`src/test.py`, class `Cronometer`) and of the Fibonacci benchmark
(`src/stress_tests/test10_fibonacci.py`).

Timestamps returned by Python's `time.time()` are modelled as exact
rationals (seconds since the epoch).  The ambient clock is made explicit:
each mutating method takes the current time as an argument, mirroring the
single read of `time.time()` the Python method performs.
-/

namespace Polyloft

/-- The `Cronometer` class of `src/test.py`: two optional timestamps,
`self.start_time` and `self.end_time`, both `None` after `__init__`. -/
structure Cronometer where
  start_time : Option ℚ
  end_time : Option ℚ
  deriving DecidableEq, Repr

/-- `__init__`: both fields set to `None`. -/
def Cronometer.init : Cronometer := ⟨none, none⟩

/-- `start(self)`: `self.start_time = time.time()`.  The current clock
reading is the argument `now`; the method returns nothing in Python, so the
embedding returns only the mutated object. -/
def Cronometer.start (c : Cronometer) (now : ℚ) : Cronometer :=
  { c with start_time := some now }

/-- `stop(self)`: `self.end_time = time.time()`. -/
def Cronometer.stop (c : Cronometer) (now : ℚ) : Cronometer :=
  { c with end_time := some now }

/-- `elapsedMilliseconds(self)`:
`if self.start_time is None or self.end_time is None: return 0`;
otherwise `return (self.end_time - self.start_time) * 1000`. -/
def Cronometer.elapsedMilliseconds (c : Cronometer) : ℚ :=
  match c.start_time, c.end_time with
  | some s, some e => (e - s) * 1000
  | _, _ => 0

/-- Python `divmod(a, b)` on (exact) floats: the quotient `a // b` is the
floor of `a / b`, and the remainder is `a - b * (a // b)`. -/
def pyDivmod (a b : ℚ) : ℚ × ℚ :=
  ((⌊a / b⌋ : ℤ), a - b * (⌊a / b⌋ : ℤ))

/-- Python `int(x)` on a float: truncation toward zero. -/
def pyInt (q : ℚ) : ℤ :=
  if q < 0 then ⌈q⌉ else ⌊q⌋

/-- Python `f"{n:02}"` for an int `n`: zero-padded to (minimum) width 2. -/
def pad2 (n : ℤ) : String :=
  if 0 ≤ n ∧ n < 10 then "0" ++ toString n else toString n

/-- Zero-pad a natural number below 1000 to three digits (the fractional
part of a `.3f` rendering). -/
def pad3 (n : ℕ) : String :=
  if n < 10 then "00" ++ toString n
  else if n < 100 then "0" ++ toString n
  else toString n

/-- Round a rational to the nearest integer, ties to even, as CPython's
float-to-decimal formatting does. -/
def roundHalfEven (q : ℚ) : ℤ :=
  if q - (⌊q⌋ : ℤ) < 1/2 then ⌊q⌋
  else if 1/2 < q - (⌊q⌋ : ℤ) then ⌊q⌋ + 1
  else if ⌊q⌋ % 2 = 0 then ⌊q⌋ else ⌊q⌋ + 1

/-- Python `f"{q:.3f}"` for a nonnegative value `q`: the value rounded to
three decimal places, with no padding of the integer part.  (The one call
site in `elapsedFormatted` passes the second component of a `divmod` with
modulus `60`, which always lies in `[0, 60)`.) -/
def format3f (q : ℚ) : String :=
  let n : ℕ := (roundHalfEven (q * 1000)).toNat
  toString (n / 1000) ++ "." ++ pad3 (n % 1000)

/-- The body of `elapsedFormatted` as a function of `elapsed_ms`:
`hours, rem = divmod(elapsed_ms / 1000, 3600)`;
`minutes, seconds = divmod(rem, 60)`;
`return f"{int(hours):02}:{int(minutes):02}:{seconds:.3f}"`. -/
def formatElapsed (elapsed_ms : ℚ) : String :=
  let hr := pyDivmod (elapsed_ms / 1000) 3600
  let ms := pyDivmod hr.2 60
  pad2 (pyInt hr.1) ++ ":" ++ pad2 (pyInt ms.1) ++ ":" ++ format3f ms.2

/-- `elapsedFormatted(self)`: formats `self.elapsedMilliseconds()`. -/
def Cronometer.elapsedFormatted (c : Cronometer) : String :=
  formatElapsed c.elapsedMilliseconds

/-! ### Exception-aware view

Python raises `TypeError` when `-` is applied to `None`.  The checked
variants below model each method together with the exception it could in
principle raise, so that "no operation ever raises" is a provable statement
about the guard in `elapsedMilliseconds` rather than a modelling artefact. -/

/-- Python binary `-` on two possibly-`None` operands: raises `TypeError`
when either operand is `None`. -/
def pySubOpt : Option ℚ → Option ℚ → Except String ℚ
  | some a, some b => Except.ok (a - b)
  | _, _ => Except.error "TypeError"

/-- `elapsedMilliseconds` with the potential `TypeError` of the subtraction
made explicit; the `is None` guard returns `0` before the subtraction can
be reached. -/
def Cronometer.elapsedMillisecondsChecked (c : Cronometer) : Except String ℚ :=
  if c.start_time = none ∨ c.end_time = none then Except.ok 0
  else do
    let d ← pySubOpt c.end_time c.start_time
    pure (d * 1000)

/-- `elapsedFormatted` with the potential exception of the inner
`elapsedMilliseconds()` call made explicit; the arithmetic and string
formatting in the body itself cannot raise. -/
def Cronometer.elapsedFormattedChecked (c : Cronometer) : Except String String :=
  c.elapsedMillisecondsChecked.map formatElapsed

/-- One method call on the stopwatch.  `start`/`stop` carry the clock value
`time.time()` returns during the call. -/
inductive Op where
  | start (t : ℚ)
  | stop (t : ℚ)
  | readMs
  | readFmt
  deriving DecidableEq, Repr

/-- The state transition of one call: `start`/`stop` overwrite their slot,
the two read methods leave the state unchanged. -/
def applyOp (c : Cronometer) : Op → Cronometer
  | Op.start t => c.start t
  | Op.stop t => c.stop t
  | Op.readMs => c
  | Op.readFmt => c

/-- One call, with exceptions made explicit: the read methods evaluate
their checked bodies and propagate any exception. -/
def step (c : Cronometer) : Op → Except String Cronometer
  | Op.start t => Except.ok (c.start t)
  | Op.stop t => Except.ok (c.stop t)
  | Op.readMs => do
    let _ ← c.elapsedMillisecondsChecked
    pure c
  | Op.readFmt => do
    let _ ← c.elapsedFormattedChecked
    pure c

/-- Execute a call sequence from a given state, stopping at the first
exception. -/
def run (c : Cronometer) : List Op → Except String Cronometer
  | [] => Except.ok c
  | op :: ops => do
    let c2 ← step c op
    run c2 ops

end Polyloft

namespace Polyloft

/-! ### The Fibonacci benchmark (`src/stress_tests/test10_fibonacci.py`) -/

/-- `def fib(n): if n <= 1: return n; return fib(n - 1) + fib(n - 2)`.
Python integers are unbounded, so the argument is an `ℤ`; Lean accepting
this definition as total is the termination argument for every integer
input (inputs `≤ 1` return immediately, larger ones strictly decrease). -/
def fib (n : ℤ) : ℤ :=
  if n ≤ 1 then n
  else fib (n - 1) + fib (n - 2)
termination_by n.toNat
decreasing_by
· simp_wf; omega
· simp_wf; omega

/-- `result = 0; for i in range(25): result += fib(i)`. -/
def result : ℤ :=
  (List.range 25).foldl (fun (acc : ℤ) (i : ℕ) => acc + fib (i : ℤ)) 0

end Polyloft

namespace Polyloft

/-! ### Helper lemmas -/

lemma elapsedMillisecondsChecked_eq_ok (c : Cronometer) :
    c.elapsedMillisecondsChecked = Except.ok c.elapsedMilliseconds := by
  rcases c with ⟨s, e⟩
  rcases s with _ | s <;> rcases e with _ | e <;>
    simp [Cronometer.elapsedMillisecondsChecked, Cronometer.elapsedMilliseconds, pySubOpt]

lemma elapsedFormattedChecked_eq_ok (c : Cronometer) :
    c.elapsedFormattedChecked = Except.ok c.elapsedFormatted := by
  simp only [Cronometer.elapsedFormattedChecked, elapsedMillisecondsChecked_eq_ok,
    Cronometer.elapsedFormatted]
  rfl

lemma step_eq_ok (c : Cronometer) (op : Op) :
    step c op = Except.ok (applyOp c op) := by
  cases op <;>
    simp [step, applyOp, elapsedMillisecondsChecked_eq_ok, elapsedFormattedChecked_eq_ok]

lemma run_eq_ok (ops : List Op) (c : Cronometer) :
    run c ops = Except.ok (ops.foldl applyOp c) := by
  induction ops generalizing c with
  | nil => rfl
  | cons op ops ih =>
    simp only [run, step_eq_ok, ih]
    rfl

lemma formatElapsed_zero : formatElapsed 0 = "00:00:0.000" := by
  have h1 : (⌊(0:ℚ) / 1000 / 3600⌋ : ℤ) = 0 := by norm_num
  have h2 : (⌊(0:ℚ) / 60⌋ : ℤ) = 0 := by norm_num
  simp only [formatElapsed, pyDivmod, h1]
  norm_num [h2, pyInt, pad2, format3f, roundHalfEven, pad3]
  decide

lemma formatElapsed_1500 : formatElapsed 1500 = "00:00:1.500" := by
  have h1 : (⌊(1500:ℚ) / 1000 / 3600⌋ : ℤ) = 0 := by norm_num
  have h2 : (1500:ℚ) / 1000 - 3600 * ((0:ℤ) : ℚ) = 3/2 := by norm_num
  have h3 : (⌊(3:ℚ)/2 / 60⌋ : ℤ) = 0 := by norm_num
  have h4 : (3:ℚ)/2 - 60 * ((0:ℤ) : ℚ) = 3/2 := by norm_num
  simp only [formatElapsed, pyDivmod, h1, h2, h3, h4]
  norm_num [pyInt, pad2, format3f, roundHalfEven, pad3]
  decide

lemma formatElapsed_3661500 : formatElapsed 3661500 = "01:01:1.500" := by
  have h1 : (⌊(3661500:ℚ) / 1000 / 3600⌋ : ℤ) = 1 := by norm_num
  have h2 : (3661500:ℚ) / 1000 - 3600 * ((1:ℤ) : ℚ) = 123/2 := by norm_num
  have h3 : (⌊(123:ℚ)/2 / 60⌋ : ℤ) = 1 := by norm_num
  have h4 : (123:ℚ)/2 - 60 * ((1:ℤ) : ℚ) = 3/2 := by norm_num
  simp only [formatElapsed, pyDivmod, h1, h2, h3, h4]
  norm_num [pyInt, pad2, format3f, roundHalfEven, pad3]
  decide

end Polyloft

namespace Polyloft

lemma elapsedMilliseconds_some (c : Cronometer) (s e : ℚ)
    (hs : c.start_time = some s) (he : c.end_time = some e) :
    c.elapsedMilliseconds = (e - s) * 1000 := by
  simp [Cronometer.elapsedMilliseconds, hs, he]

lemma fib_ofNat (n : ℕ) : fib (n : ℤ) = (Nat.fib n : ℤ) := by
  induction n using Nat.strong_induction_on with
  | _ n ih =>
    match n with
    | 0 => rw [fib]; norm_num
    | 1 => rw [fib]; norm_num
    | (m + 2) =>
      rw [fib]
      have h2 : ¬ ((m + 2 : ℕ) : ℤ) ≤ 1 := by push_cast; omega
      rw [if_neg h2]
      have e1 : ((m + 2 : ℕ) : ℤ) - 1 = ((m + 1 : ℕ) : ℤ) := by push_cast; ring
      have e2 : ((m + 2 : ℕ) : ℤ) - 2 = ((m : ℕ) : ℤ) := by push_cast; ring
      rw [e1, e2, ih (m + 1) (by omega), ih m (by omega), Nat.fib_add_two]
      push_cast; ring

lemma result_eq : result = 121392 := by
  have hfun : (fun (acc : ℤ) (i : ℕ) => acc + fib (i : ℤ))
      = fun (acc : ℤ) (i : ℕ) => acc + (Nat.fib i : ℤ) := by
    funext acc i
    rw [fib_ofNat]
  rw [result, hfun]
  decide

end Polyloft

namespace Polyloft

/-! ### Claim theorems -/

/-- C1: for every state of the stopwatch in which at least one of the two
timestamps is absent — freshly constructed with no calls made, only
`start()` called, or only `stop()` called with no prior `start()` —
`elapsedMilliseconds()` returns 0. -/
theorem elapsed_ms_absent_zero :
    (∀ c : Cronometer, c.start_time = none ∨ c.end_time = none →
      c.elapsedMilliseconds = 0) ∧
    Cronometer.init.elapsedMilliseconds = 0 ∧
    (∀ t : ℚ, (Cronometer.init.start t).elapsedMilliseconds = 0) ∧
    (∀ t : ℚ, (Cronometer.init.stop t).elapsedMilliseconds = 0) := by
  refine ⟨?_, rfl, fun t => rfl, fun t => rfl⟩
  rintro ⟨s, e⟩ h
  rcases s with _ | s <;> rcases e with _ | e <;>
    simp_all [Cronometer.elapsedMilliseconds]

/-- Witness for C1: a stopwatch on which only `start()` was called reports
zero elapsed milliseconds. -/
theorem elapsed_ms_absent_zero_witness :
    (Cronometer.init.start 5).elapsedMilliseconds = 0 :=
  elapsed_ms_absent_zero.1 (Cronometer.init.start 5) (Or.inr rfl)

/-- C3: when both timestamps are present, `elapsedMilliseconds()` returns
exactly `(stopTime - startTime) * 1000`; after `start()` then `stop()` with
the clock advancing by exactly 1500 ms (1.5 s), it returns 1500. -/
theorem elapsed_ms_both_present :
    (∀ (c : Cronometer) (s e : ℚ), c.start_time = some s →
      c.end_time = some e → c.elapsedMilliseconds = (e - s) * 1000) ∧
    (∀ t : ℚ,
      ((Cronometer.init.start t).stop (t + 3/2)).elapsedMilliseconds = 1500) := by
  refine ⟨elapsedMilliseconds_some, fun t => ?_⟩
  have h := elapsedMilliseconds_some ((Cronometer.init.start t).stop (t + 3/2))
    t (t + 3/2) rfl rfl
  rw [h]
  ring

/-- Witness for C3: a stopwatch started at time 2 s and stopped at time 4 s
reports `(4 - 2) * 1000` milliseconds. -/
theorem elapsed_ms_both_present_witness :
    ((Cronometer.init.start 2).stop 4).elapsedMilliseconds = (4 - 2) * 1000 :=
  elapsed_ms_both_present.1 _ 2 4 rfl rfl

/-- C4: `start()` overwrites any previously recorded `startTime`, so
`start(); start(); stop()` measures from the second `start()` only. -/
theorem start_overwrite_semantics (t1 t2 t3 : ℚ) :
    (((Cronometer.init.start t1).start t2).stop t3).elapsedMilliseconds
        = (t3 - t2) * 1000 ∧
    ((Cronometer.init.start t1).start t2).start_time = some t2 :=
  ⟨rfl, rfl⟩

/-- C5: `elapsedMilliseconds()` performs no ordering validation: when both
timestamps are present and `stopTime` is strictly earlier than `startTime`,
it returns a negative number (no error, no clamping to zero). -/
theorem elapsed_ms_negative_when_reversed (c : Cronometer) (s e : ℚ)
    (hs : c.start_time = some s) (he : c.end_time = some e) (hlt : e < s) :
    c.elapsedMilliseconds < 0 := by
  rw [elapsedMilliseconds_some c s e hs he]
  have hneg : e - s < 0 := by linarith
  nlinarith

/-- Witness for C5: started at time 1 s, stopped at time 0 s, the reported
elapsed milliseconds are negative. -/
theorem elapsed_ms_negative_when_reversed_witness :
    ((Cronometer.init.start 1).stop 0).elapsedMilliseconds < 0 :=
  elapsed_ms_negative_when_reversed _ 1 0 rfl rfl (by decide)

/-- C6: no operation of the stopwatch raises an exception under any call
sequence or state: both checked reads return `ok` in every state (the
`is None` guard shields the only possibly-raising subtraction), and every
call sequence runs to a final state. -/
theorem run_never_raises (c : Cronometer) (ops : List Op) :
    c.elapsedMillisecondsChecked = Except.ok c.elapsedMilliseconds ∧
    c.elapsedFormattedChecked = Except.ok c.elapsedFormatted ∧
    ∃ c2, run c ops = Except.ok c2 :=
  ⟨elapsedMillisecondsChecked_eq_ok c, elapsedFormattedChecked_eq_ok c,
    ops.foldl applyOp c, run_eq_ok ops c⟩

/-- C7: `elapsedMilliseconds()` and `elapsedFormatted()` are idempotent pure
reads: a read call leaves the state exactly as it was, so inserting one
before any call sequence does not change that sequence's outcome, and its
result (a function of the state alone) is unchanged by a preceding read. -/
theorem reads_are_pure (c : Cronometer) (ops : List Op) :
    step c Op.readMs = Except.ok c ∧
    step c Op.readFmt = Except.ok c ∧
    run c (Op.readMs :: ops) = run c ops ∧
    run c (Op.readFmt :: ops) = run c ops ∧
    (applyOp c Op.readMs).elapsedMilliseconds = c.elapsedMilliseconds ∧
    (applyOp c Op.readFmt).elapsedFormatted = c.elapsedFormatted := by
  refine ⟨step_eq_ok c Op.readMs, step_eq_ok c Op.readFmt, ?_, ?_, rfl, rfl⟩
  · show (do
      let c2 ← step c Op.readMs
      run c2 ops) = run c ops
    rw [step_eq_ok c Op.readMs]
    rfl
  · show (do
      let c2 ← step c Op.readFmt
      run c2 ops) = run c ops
    rw [step_eq_ok c Op.readFmt]
    rfl

/-- C8: `start()` mutates only `startTime` (recording the current time
there) and leaves `stopTime` unchanged; `stop()` mutates only `stopTime`
and leaves `startTime` unchanged. -/
theorem start_stop_frame (c : Cronometer) (t : ℚ) :
    (c.start t).start_time = some t ∧ (c.start t).end_time = c.end_time ∧
    (c.stop t).end_time = some t ∧ (c.stop t).start_time = c.start_time :=
  ⟨rfl, rfl, rfl, rfl⟩

/-- C9: in every stopwatch state whose `elapsedMilliseconds()` is zero
(a fresh instance included), `elapsedFormatted()` returns `"00:00:0.000"`,
the seconds component showing a single digit before the decimal point. -/
theorem elapsedFormatted_zero_state (c : Cronometer)
    (h : c.elapsedMilliseconds = 0) :
    c.elapsedFormatted = "00:00:0.000" := by
  unfold Cronometer.elapsedFormatted
  rw [h]
  exact formatElapsed_zero

/-- Witness for C9: the freshly constructed stopwatch formats as
`"00:00:0.000"`. -/
theorem elapsedFormatted_zero_state_witness :
    Cronometer.init.elapsedFormatted = "00:00:0.000" :=
  elapsedFormatted_zero_state Cronometer.init rfl

/-- C2 counterexample record: at an elapsed duration of exactly 1500 ms the
code formats `"00:00:1.500"`, not the `"00:00:01.500"` the spec states (the
`.3f` conversion does not zero-pad the seconds to two digits), and at
3661500 ms it formats `"01:01:1.500"`, not `"01:01:01.500"`. -/
theorem elapsedFormatted_seconds_unpadded :
    ((Cronometer.init.start 0).stop (3/2)).elapsedMilliseconds = 1500 ∧
    ((Cronometer.init.start 0).stop (3/2)).elapsedFormatted = "00:00:1.500" ∧
    "00:00:1.500" ≠ "00:00:01.500" ∧
    formatElapsed 3661500 = "01:01:1.500" := by
  have h : ((Cronometer.init.start 0).stop (3/2)).elapsedMilliseconds = 1500 := by
    rw [elapsedMilliseconds_some ((Cronometer.init.start 0).stop (3/2)) 0 (3/2)
      rfl rfl]
    norm_num
  refine ⟨h, ?_, by decide, formatElapsed_3661500⟩
  unfold Cronometer.elapsedFormatted
  rw [h]
  exact formatElapsed_1500

/-- C10: the Python `fib` is total on the integers (values `≤ 1` are
returned directly, larger arguments recurse on strictly smaller ones), it
satisfies the textbook recurrence, it agrees with the standard Fibonacci
function on the naturals, and the benchmark's sum over `range(25)` is
121392, which equals `Fib 26 - 1`. -/
theorem fib_terminates_and_correct :
    (∀ n : ℤ, n ≤ 1 → fib n = n) ∧
    (∀ n : ℤ, 1 < n → fib n = fib (n - 1) + fib (n - 2)) ∧
    (∀ n : ℕ, fib (n : ℤ) = (Nat.fib n : ℤ)) ∧
    result = 121392 ∧
    result = (Nat.fib 26 : ℤ) - 1 := by
  refine ⟨?_, ?_, fib_ofNat, result_eq, ?_⟩
  · intro n h
    rw [fib, if_pos h]
  · intro n h
    rw [fib, if_neg (by omega)]
  · rw [result_eq]
    decide

/-- Witness for C10: `fib 1 = 1` and `fib 2` unfolds by the recurrence. -/
theorem fib_terminates_and_correct_witness :
    fib 1 = 1 ∧ fib 2 = fib (2 - 1) + fib (2 - 2) :=
  ⟨fib_terminates_and_correct.1 1 (by decide),
    fib_terminates_and_correct.2.1 2 (by decide)⟩

end Polyloft
